import Mathlib

/-!
Verification of the bootstrap/teardown layer of the MoarVM core (src/moar.c).

The definitions below are a shallow embedding of the C source:
* the log-path sanitizer `fopen_perhaps_with_pid` (moar.c:24-64),
* the environment-driven configuration performed by `MVM_vm_create_instance`
  (moar.c:67-275),
* the mutex-initialization failure behaviour of the `init_mutex` macro
  (moar.c:14-20) and the table of mutexes it is applied to,
* the log-closing portion of `MVM_vm_destroy_instance` (moar.c:463-470),
* `MVM_vm_set_lib_path` (moar.c:510-524).

C strings are modelled as `List Char`, `getenv` as a partial map
`String → Option String`, machine integers as `Nat` (all the quantities
involved — string lengths, counters, a process id — are small and
non-negative; no overflow is reachable).
-/

namespace Moar

/-! ## Decimal rendering of the process id (the C side is snprintf "%d") -/

/-- The character for a single decimal digit (argument is always < 10 here). -/
def digitChar (d : Nat) : Char :=
  if d = 0 then '0' else if d = 1 then '1' else if d = 2 then '2'
  else if d = 3 then '3' else if d = 4 then '4' else if d = 5 then '5'
  else if d = 6 then '6' else if d = 7 then '7' else if d = 8 then '8'
  else '9'

/-- Accumulator-based decimal conversion, most significant digit first.  The
first argument is structural fuel; any fuel of at least the digit count gives
the full rendering (and `n` itself always suffices). -/
def decimalAux : Nat → Nat → List Char → List Char
  | _, 0, acc => acc
  | 0, _ + 1, acc => acc
  | fuel + 1, n + 1, acc =>
    decimalAux fuel ((n + 1) / 10) (digitChar ((n + 1) % 10) :: acc)

/-- Decimal rendering of a natural number, as printf's %d renders it. -/
def decimal (n : Nat) : List Char := if n = 0 then ['0'] else decimalAux n n []

/-! ## The log-path sanitizer fopen_perhaps_with_pid (moar.c:24-64) -/

/-- `strstr(path, "%d") != NULL` (moar.c:25): the path contains the literal
two-character substring "%d".  Note this is a plain substring search: it also
fires on the "%d" inside a "%%d" sequence. -/
def hasPctD : List Char → Bool
  | [] => false
  | [_] => false
  | a :: b :: rest => (a == '%' && b == 'd') || hasPctD (b :: rest)

/-- The percent-counting loop of moar.c:32-40: scan left to right; a "%%"
pair is skipped whole; any other '%' (including a trailing one) counts. -/
def countPercents : List Char → Nat
  | [] => 0
  | [c] => if c = '%' then 1 else 0
  | a :: b :: rest =>
    if a = '%' then
      if b = '%' then countPercents rest
      else 1 + countPercents (b :: rest)
    else countPercents (b :: rest)

/-- The independent (non-"%%") directives of a path, in order, following the
same left-to-right scan as `countPercents`: `some c` is a '%' followed by the
character `c`, `none` is a lone trailing '%'. -/
def directives : List Char → List (Option Char)
  | [] => []
  | [c] => if c = '%' then [none] else []
  | a :: b :: rest =>
    if a = '%' then
      if b = '%' then directives rest
      else some b :: directives (b :: rest)
    else directives (b :: rest)

/-- Does the scan meet a "%%" pair immediately followed by 'd'?  Such a pair
prints a literal '%' that fuses with the following 'd' into a "%d" in the
formatted output. -/
def hasCollapsedPctD : List Char → Bool
  | [] => false
  | [_] => false
  | a :: b :: rest =>
    if a = '%' then
      if b = '%' then (rest.head? == some 'd') || hasCollapsedPctD rest
      else hasCollapsedPctD (b :: rest)
    else hasCollapsedPctD (b :: rest)

/-- printf-style formatting of the path with the single argument `pid`
(the body of snprintf(fixed_path, path_length + 16, path, pid), moar.c:56):
"%%" prints '%', "%d" prints the pid in decimal.  A '%' followed by any
other conversion character has no defined C behaviour with an integer
argument; the model keeps those two characters verbatim (no claim's
hypotheses reach this case). -/
def formatD (pid : Nat) : List Char → List Char
  | [] => []
  | [c] => [c]
  | a :: b :: rest =>
    if a = '%' then
      if b = '%' then '%' :: formatD pid rest
      else if b = 'd' then decimal pid ++ formatD pid rest
      else a :: b :: formatD pid rest
    else a :: formatD pid (b :: rest)

/-- snprintf with buffer size `path.length + 16` writes at most
`path.length + 15` characters (moar.c:46,56). -/
def snprintfD (path : List Char) (pid : Nat) : List Char :=
  (formatD pid path).take (path.length + 15)

/-- What fopen_perhaps_with_pid did: the path actually handed to fopen, and
whether the snprintf substitution branch ran. -/
structure OpenResult where
  pathUsed : List Char
  substituted : Bool
  deriving DecidableEq, Repr

/-- fopen_perhaps_with_pid (moar.c:24-64).  The mode string ("w" or "a") is
passed through to fopen and does not influence the path computation. -/
def fopen_perhaps_with_pid (path : List Char) ( _mode : String) (pid : Nat) :
    OpenResult :=
  if hasPctD path then
    if countPercents path > 1 then
      { pathUsed := path, substituted := false }
    else
      { pathUsed := snprintfD path pid, substituted := true }
  else
    { pathUsed := path, substituted := false }

/-! ## Environment model -/

/-- The process environment, as getenv sees it: `none` is an unset variable,
`some ""` a variable that is present but empty. -/
def Env := String → Option String

/-- The C idiom `v && strlen(v)`: the variable is set and non-empty. -/
def envNonEmpty (env : Env) (name : String) : Bool :=
  match env name with
  | some v => v.length != 0
  | none => false

/-- The value of a set variable (only consulted after a successful getenv). -/
def envValue (env : Env) (name : String) : String := (env name).getD ""

/-! ## The instance state produced by MVM_vm_create_instance -/

/-- A diagnostic output sink: a file opened at the given path, or the
process's standard error stream. -/
inductive Sink where
  | file (path : List Char)
  | stdErr
  deriving DecidableEq, Repr

/-- The fields of MVMInstance written by the environment-driven part of
MVM_vm_create_instance (moar.c:79-84 and 181-266).  MVM_calloc zeroes the
whole structure first, so every field starts out 0 / NULL. -/
structure Instance where
  main_thread_thread_id : Nat
  next_user_thread_id : Nat
  instrumentation_level : Nat
  spesh_enabled : Bool
  spesh_inline_enabled : Bool
  spesh_osr_enabled : Bool
  spesh_nodelay : Bool
  jit_enabled : Bool
  nfa_debug_enabled : Bool
  cross_thread_write_logging : Bool
  cross_thread_write_logging_include_locked : Bool
  coverage_logging : Bool
  spesh_log_fh : Option Sink
  jit_log_fh : Option Sink
  jit_bytecode_map : Option Sink
  dynvar_log_fh : Option Sink
  coverage_log_fh : Option Sink
  deriving DecidableEq, Repr

/-- The zeroed instance storage produced by MVM_calloc (moar.c:76). -/
def zeroInstance : Instance :=
  { main_thread_thread_id := 0
    next_user_thread_id := 0
    instrumentation_level := 0
    spesh_enabled := false
    spesh_inline_enabled := false
    spesh_osr_enabled := false
    spesh_nodelay := false
    jit_enabled := false
    nfa_debug_enabled := false
    cross_thread_write_logging := false
    cross_thread_write_logging_include_locked := false
    coverage_logging := false
    spesh_log_fh := none
    jit_log_fh := none
    jit_bytecode_map := none
    dynvar_log_fh := none
    coverage_log_fh := none }

/-- moar.c:81-84: the main thread gets id 1, the shared counter for the next
thread id is stored as 2; moar.c:183: the instrumentation level starts at 1. -/
def baseSetup (i : Instance) : Instance :=
  { i with
    main_thread_thread_id := 1
    next_user_thread_id := 2
    instrumentation_level := 1 }

/-- moar.c:188-190: open the specializer log when MVM_SPESH_LOG is set and
non-empty. -/
def speshLogSetup (env : Env) (pid : Nat) (i : Instance) : Instance :=
  if envNonEmpty env "MVM_SPESH_LOG" then
    { i with spesh_log_fh := some (Sink.file
        (fopen_perhaps_with_pid (envValue env "MVM_SPESH_LOG").data "w" pid).pathUsed) }
  else i

/-- moar.c:194-196: inlining stays at its zeroed default unless the inline
disable variable is unset or empty. -/
def speshInlineSetup (env : Env) (i : Instance) : Instance :=
  if envNonEmpty env "MVM_SPESH_INLINE_DISABLE" then i
  else { i with spesh_inline_enabled := true }

/-- moar.c:197-199: likewise for on-stack replacement. -/
def speshOsrSetup (env : Env) (i : Instance) : Instance :=
  if envNonEmpty env "MVM_SPESH_OSR_DISABLE" then i
  else { i with spesh_osr_enabled := true }

/-- moar.c:191-200: the specializer is enabled when MVM_SPESH_DISABLE is
unset or empty, and only then are the inline and OSR toggles consulted. -/
def speshFlagsSetup (env : Env) (i : Instance) : Instance :=
  if envNonEmpty env "MVM_SPESH_DISABLE" then i
  else speshOsrSetup env (speshInlineSetup env { i with spesh_enabled := true })

/-- moar.c:204-207. -/
def speshNodelaySetup (env : Env) (i : Instance) : Instance :=
  if envNonEmpty env "MVM_SPESH_NODELAY" then { i with spesh_nodelay := true }
  else i

/-- moar.c:216-218. -/
def jitEnabledSetup (env : Env) (i : Instance) : Instance :=
  if envNonEmpty env "MVM_JIT_DISABLE" then i
  else { i with jit_enabled := true }

/-- moar.c:219-221. -/
def jitLogSetup (env : Env) (pid : Nat) (i : Instance) : Instance :=
  if envNonEmpty env "MVM_JIT_LOG" then
    { i with jit_log_fh := some (Sink.file
        (fopen_perhaps_with_pid (envValue env "MVM_JIT_LOG").data "w" pid).pathUsed) }
  else i

/-- moar.c:222-229: the bytecode map is opened with a plain fopen at
dir ++ "/jit-map.txt" (no pid substitution). -/
def jitBytecodeMapSetup (env : Env) (i : Instance) : Instance :=
  if envNonEmpty env "MVM_JIT_BYTECODE_DIR" then
    { i with jit_bytecode_map := some (Sink.file
        ((envValue env "MVM_JIT_BYTECODE_DIR").data ++ "/jit-map.txt".data)) }
  else i

/-- moar.c:215-230. -/
def jitSetup (env : Env) (pid : Nat) (i : Instance) : Instance :=
  jitBytecodeMapSetup env (jitLogSetup env pid (jitEnabledSetup env i))

/-- moar.c:233-241. -/
def dynvarSetup (env : Env) (pid : Nat) (i : Instance) : Instance :=
  if envNonEmpty env "MVM_DYNVAR_LOG" then
    { i with dynvar_log_fh := some (Sink.file
        (fopen_perhaps_with_pid (envValue env "MVM_DYNVAR_LOG").data "w" pid).pathUsed) }
  else { i with dynvar_log_fh := none }

/-- moar.c:242: enabled on mere presence of the variable. -/
def nfaSetup (env : Env) (i : Instance) : Instance :=
  { i with nfa_debug_enabled := (env "MVM_NFA_DEB").isSome }

/-- moar.c:243-253: presence (even empty) of MVM_CROSS_THREAD_WRITE_LOG
enables the logging and bumps the instrumentation level. -/
def crossThreadSetup (env : Env) (i : Instance) : Instance :=
  if (env "MVM_CROSS_THREAD_WRITE_LOG").isSome then
    { i with
      cross_thread_write_logging := true
      cross_thread_write_logging_include_locked :=
        (env "MVM_CROSS_THREAD_WRITE_LOG_INCLUDE_LOCKED").isSome
      instrumentation_level := i.instrumentation_level + 1 }
  else { i with cross_thread_write_logging := false }

/-- moar.c:255-266: presence (even empty) of MVM_COVERAGE_LOG enables the
logging and bumps the instrumentation level; an empty value routes the sink
to standard error, a non-empty one opens a file in append mode. -/
def coverageSetup (env : Env) (pid : Nat) (i : Instance) : Instance :=
  if (env "MVM_COVERAGE_LOG").isSome then
    { i with
      coverage_logging := true
      instrumentation_level := i.instrumentation_level + 1
      coverage_log_fh :=
        if (envValue env "MVM_COVERAGE_LOG").length != 0 then
          some (Sink.file
            (fopen_perhaps_with_pid (envValue env "MVM_COVERAGE_LOG").data "a" pid).pathUsed)
        else some Sink.stdErr }
  else { i with coverage_logging := false }

/-- The environment-driven portion of MVM_vm_create_instance (moar.c:67-275),
in source order.  `pid` is the process id getpid() returns.  The parts of
bootstrap that have no bearing on the claims (GC setup, Unicode, 6model
bootstrap, std handles, the spesh_limit atoi) touch none of the modelled
fields. -/
def MVM_vm_create_instance (env : Env) (pid : Nat) : Instance :=
  coverageSetup env pid
    (crossThreadSetup env
      (nfaSetup env
        (dynvarSetup env pid
          (jitSetup env pid
            (speshNodelaySetup env
              (speshFlagsSetup env
                (speshLogSetup env pid
                  (baseSetup zeroInstance))))))))

/-- The empty environment. -/
def envEmpty : Env := fun _ => none

/-- Inline and OSR disables both set, specializer disable unset. -/
def envInlineOsr : Env := fun n =>
  if n = "MVM_SPESH_INLINE_DISABLE" then some "1"
  else if n = "MVM_SPESH_OSR_DISABLE" then some "1"
  else none

/-- Only the inline disable set. -/
def envInlineOnly : Env := fun n =>
  if n = "MVM_SPESH_INLINE_DISABLE" then some "1" else none

/-- Coverage-log variable present but empty. -/
def envCoverageEmpty : Env := fun n =>
  if n = "MVM_COVERAGE_LOG" then some "" else none

/-- JIT bytecode dir and coverage log both configured. -/
def envBytecodeCoverage : Env := fun n =>
  if n = "MVM_JIT_BYTECODE_DIR" then some "/tmp"
  else if n = "MVM_COVERAGE_LOG" then some "/tmp/cov.log"
  else none

/-! ## The init_mutex macro and the mutexes create_instance initializes -/

/-- The mutexes MVM_vm_create_instance initializes through the init_mutex
macro, identified by the MVMInstance field they live in. -/
inductive MutexId where
  | permroots
  | repr_registry
  | hllconfigs
  | dll_registry
  | ext_registry
  | extop_registry
  | sc_weakhash
  | loaded_compunits
  | container_registry
  | object_ids
  | int_const_cache
  | event_loop_start
  | compiler_registry
  | hll_syms
  | callsite_interns
  | multi_cache_add
  | spesh_install
  | cross_thread_write_logging
  deriving DecidableEq, Repr

/-- The name string the source passes to init_mutex for each mutex
(moar.c:91-248).  Note moar.c:103: the DLL registry mutex is initialized
with the name "REPR registry" (while the comment on moar.c:102 says
"Set up DLL registry mutex."). -/
def mutexInitName : MutexId → String
  | .permroots => "permanent roots"
  | .repr_registry => "REPR registry"
  | .hllconfigs => "hll configs"
  | .dll_registry => "REPR registry"
  | .ext_registry => "extension registry"
  | .extop_registry => "extension op registry"
  | .sc_weakhash => "sc weakhash"
  | .loaded_compunits => "loaded compunits"
  | .container_registry => "container registry"
  | .object_ids => "object ID hash"
  | .int_const_cache => "int constant cache"
  | .event_loop_start => "event loop thread start"
  | .compiler_registry => "compiler registry"
  | .hll_syms => "hll syms"
  | .callsite_interns => "callsite interns"
  | .multi_cache_add => "multi-cache addition"
  | .spesh_install => "spesh installations"
  | .cross_thread_write_logging => "cross thread write logging output"

/-- The unconditional init_mutex applications of MVM_vm_create_instance in
source order (moar.c:91-187); the cross-thread-write-logging mutex
(moar.c:248) is additionally initialized when that logging is enabled. -/
def bootstrapMutexInits : List MutexId :=
  [.permroots, .repr_registry, .hllconfigs, .dll_registry, .ext_registry,
   .extop_registry, .sc_weakhash, .loaded_compunits, .container_registry,
   .object_ids, .int_const_cache, .event_loop_start, .compiler_registry,
   .hll_syms, .callsite_interns, .multi_cache_add, .spesh_install]

/-- Outcome of the init_mutex macro (moar.c:14-20). -/
inductive InitMutexResult where
  | ok
  | fail (diagnostic : String) (exitCode : Nat)
  deriving DecidableEq, Repr

/-- The init_mutex macro (moar.c:14-20): when uv_mutex_init returns a
negative status, print the diagnostic (the uv_strerror detail line is
omitted from the model) and exit(1); otherwise continue. -/
def init_mutex (stat : Int) (m : MutexId) : InitMutexResult :=
  if stat < 0 then
    .fail ("MoarVM: Initialization of " ++ mutexInitName m ++ " mutex failed") 1
  else .ok

/-! ## The log-closing portion of MVM_vm_destroy_instance -/

/-- `if (fh) fclose(fh);` on a file-handle field. -/
def fcloseIfOpen : Option Sink → Option Sink
  | some _ => none
  | none => none

/-- The diagnostic-log teardown performed by MVM_vm_destroy_instance
(moar.c:463-470): it closes spesh_log_fh, jit_log_fh and dynvar_log_fh and
touches no other log field. -/
def MVM_vm_destroy_instance_logs (i : Instance) : Instance :=
  { i with
    spesh_log_fh := fcloseIfOpen i.spesh_log_fh
    jit_log_fh := fcloseIfOpen i.jit_log_fh
    dynvar_log_fh := fcloseIfOpen i.dynvar_log_fh }

/-! ## MVM_vm_set_lib_path (moar.c:510-524) -/

/-- Outcome of MVM_vm_set_lib_path: either MVM_panic fired (carrying the
process exit code, the diagnostic format string, and the untouched library
path array), or the updated array. -/
inductive SetLibPathResult where
  | panicked (diagnostic : String) (exitCode : Nat)
      (lib_path : List (Option String))
  | ok (lib_path : List (Option String))
  deriving DecidableEq, Repr

/-- MVM_vm_set_lib_path.  `maxCount` stands for
`sizeof instance->lib_path / sizeof *instance->lib_path`; the MVMInstance
layout is outside the shown sources, so the fixed capacity is kept abstract.
The overflow check precedes both loops, so a panic leaves the array exactly
as it was; otherwise the first loop writes the given paths and the second
clears the remainder. -/
def MVM_vm_set_lib_path (maxCount : Nat) (lib_path : List (Option String))
    (paths : List String) : SetLibPathResult :=
  if paths.length > maxCount then
    .panicked "Cannot set more than %i library paths" 1 lib_path
  else
    .ok (paths.map some ++ List.replicate (maxCount - paths.length) none)

/-! ## Thread-id assignment -/

/-- Modelled from the spec: MVMInstance's next_user_thread_id is "a shared
atomic counter starting at 2, monotonically increasing, never reused" —
spawning a thread atomically fetches the counter as the new thread's id and
increments it (the spawning code itself is outside the shown sources). -/
def spawn_thread_id (next_user_thread_id : Nat) : Nat × Nat :=
  (next_user_thread_id, next_user_thread_id + 1)

/-- The ids handed out by `n` successive spawns starting from the given
counter value. -/
def assigned_ids (next_id : Nat) : Nat → List Nat
  | 0 => []
  | n + 1 => (spawn_thread_id next_id).1 :: assigned_ids (spawn_thread_id next_id).2 n

/-! ## Field bookkeeping for the setup pipeline -/

lemma speshLogSetup_ids (env : Env) (pid : Nat) (i : Instance) :
    (speshLogSetup env pid i).main_thread_thread_id = i.main_thread_thread_id ∧
    (speshLogSetup env pid i).next_user_thread_id = i.next_user_thread_id := by
  unfold speshLogSetup; split <;> exact ⟨rfl, rfl⟩

lemma speshFlagsSetup_ids (env : Env) (i : Instance) :
    (speshFlagsSetup env i).main_thread_thread_id = i.main_thread_thread_id ∧
    (speshFlagsSetup env i).next_user_thread_id = i.next_user_thread_id := by
  unfold speshFlagsSetup speshOsrSetup speshInlineSetup
  repeat' split
  all_goals exact ⟨rfl, rfl⟩

lemma speshNodelaySetup_ids (env : Env) (i : Instance) :
    (speshNodelaySetup env i).main_thread_thread_id = i.main_thread_thread_id ∧
    (speshNodelaySetup env i).next_user_thread_id = i.next_user_thread_id := by
  unfold speshNodelaySetup; split <;> exact ⟨rfl, rfl⟩

lemma jitEnabledSetup_ids (env : Env) (i : Instance) :
    (jitEnabledSetup env i).main_thread_thread_id = i.main_thread_thread_id ∧
    (jitEnabledSetup env i).next_user_thread_id = i.next_user_thread_id := by
  unfold jitEnabledSetup; split <;> exact ⟨rfl, rfl⟩

lemma jitLogSetup_ids (env : Env) (pid : Nat) (i : Instance) :
    (jitLogSetup env pid i).main_thread_thread_id = i.main_thread_thread_id ∧
    (jitLogSetup env pid i).next_user_thread_id = i.next_user_thread_id := by
  unfold jitLogSetup; split <;> exact ⟨rfl, rfl⟩

lemma jitBytecodeMapSetup_ids (env : Env) (i : Instance) :
    (jitBytecodeMapSetup env i).main_thread_thread_id = i.main_thread_thread_id ∧
    (jitBytecodeMapSetup env i).next_user_thread_id = i.next_user_thread_id := by
  unfold jitBytecodeMapSetup; split <;> exact ⟨rfl, rfl⟩

lemma dynvarSetup_ids (env : Env) (pid : Nat) (i : Instance) :
    (dynvarSetup env pid i).main_thread_thread_id = i.main_thread_thread_id ∧
    (dynvarSetup env pid i).next_user_thread_id = i.next_user_thread_id := by
  unfold dynvarSetup; split <;> exact ⟨rfl, rfl⟩

lemma nfaSetup_ids (env : Env) (i : Instance) :
    (nfaSetup env i).main_thread_thread_id = i.main_thread_thread_id ∧
    (nfaSetup env i).next_user_thread_id = i.next_user_thread_id :=
  ⟨rfl, rfl⟩

lemma crossThreadSetup_ids (env : Env) (i : Instance) :
    (crossThreadSetup env i).main_thread_thread_id = i.main_thread_thread_id ∧
    (crossThreadSetup env i).next_user_thread_id = i.next_user_thread_id := by
  unfold crossThreadSetup; split <;> exact ⟨rfl, rfl⟩

lemma coverageSetup_ids (env : Env) (pid : Nat) (i : Instance) :
    (coverageSetup env pid i).main_thread_thread_id = i.main_thread_thread_id ∧
    (coverageSetup env pid i).next_user_thread_id = i.next_user_thread_id := by
  unfold coverageSetup; split <;> exact ⟨rfl, rfl⟩

lemma speshLogSetup_level (env : Env) (pid : Nat) (i : Instance) :
    (speshLogSetup env pid i).instrumentation_level = i.instrumentation_level := by
  unfold speshLogSetup; split <;> rfl

lemma speshFlagsSetup_level (env : Env) (i : Instance) :
    (speshFlagsSetup env i).instrumentation_level = i.instrumentation_level := by
  unfold speshFlagsSetup speshOsrSetup speshInlineSetup
  repeat' split
  all_goals rfl

lemma speshNodelaySetup_level (env : Env) (i : Instance) :
    (speshNodelaySetup env i).instrumentation_level = i.instrumentation_level := by
  unfold speshNodelaySetup; split <;> rfl

lemma jitEnabledSetup_level (env : Env) (i : Instance) :
    (jitEnabledSetup env i).instrumentation_level = i.instrumentation_level := by
  unfold jitEnabledSetup; split <;> rfl

lemma jitLogSetup_level (env : Env) (pid : Nat) (i : Instance) :
    (jitLogSetup env pid i).instrumentation_level = i.instrumentation_level := by
  unfold jitLogSetup; split <;> rfl

lemma jitBytecodeMapSetup_level (env : Env) (i : Instance) :
    (jitBytecodeMapSetup env i).instrumentation_level = i.instrumentation_level := by
  unfold jitBytecodeMapSetup; split <;> rfl

lemma dynvarSetup_level (env : Env) (pid : Nat) (i : Instance) :
    (dynvarSetup env pid i).instrumentation_level = i.instrumentation_level := by
  unfold dynvarSetup; split <;> rfl

lemma nfaSetup_level (env : Env) (i : Instance) :
    (nfaSetup env i).instrumentation_level = i.instrumentation_level := rfl

lemma crossThreadSetup_level (env : Env) (i : Instance) :
    (crossThreadSetup env i).instrumentation_level =
      i.instrumentation_level +
        (if (env "MVM_CROSS_THREAD_WRITE_LOG").isSome then 1 else 0) := by
  unfold crossThreadSetup; split <;> simp_all

lemma coverageSetup_level (env : Env) (pid : Nat) (i : Instance) :
    (coverageSetup env pid i).instrumentation_level =
      i.instrumentation_level +
        (if (env "MVM_COVERAGE_LOG").isSome then 1 else 0) := by
  unfold coverageSetup; split <;> simp_all

lemma speshLogSetup_spesh (env : Env) (pid : Nat) (i : Instance) :
    (speshLogSetup env pid i).spesh_enabled = i.spesh_enabled ∧
    (speshLogSetup env pid i).spesh_inline_enabled = i.spesh_inline_enabled ∧
    (speshLogSetup env pid i).spesh_osr_enabled = i.spesh_osr_enabled := by
  unfold speshLogSetup; split <;> exact ⟨rfl, rfl, rfl⟩

lemma speshNodelaySetup_spesh (env : Env) (i : Instance) :
    (speshNodelaySetup env i).spesh_enabled = i.spesh_enabled ∧
    (speshNodelaySetup env i).spesh_inline_enabled = i.spesh_inline_enabled ∧
    (speshNodelaySetup env i).spesh_osr_enabled = i.spesh_osr_enabled := by
  unfold speshNodelaySetup; split <;> exact ⟨rfl, rfl, rfl⟩

lemma jitEnabledSetup_spesh (env : Env) (i : Instance) :
    (jitEnabledSetup env i).spesh_enabled = i.spesh_enabled ∧
    (jitEnabledSetup env i).spesh_inline_enabled = i.spesh_inline_enabled ∧
    (jitEnabledSetup env i).spesh_osr_enabled = i.spesh_osr_enabled := by
  unfold jitEnabledSetup; split <;> exact ⟨rfl, rfl, rfl⟩

lemma jitLogSetup_spesh (env : Env) (pid : Nat) (i : Instance) :
    (jitLogSetup env pid i).spesh_enabled = i.spesh_enabled ∧
    (jitLogSetup env pid i).spesh_inline_enabled = i.spesh_inline_enabled ∧
    (jitLogSetup env pid i).spesh_osr_enabled = i.spesh_osr_enabled := by
  unfold jitLogSetup; split <;> exact ⟨rfl, rfl, rfl⟩

lemma jitBytecodeMapSetup_spesh (env : Env) (i : Instance) :
    (jitBytecodeMapSetup env i).spesh_enabled = i.spesh_enabled ∧
    (jitBytecodeMapSetup env i).spesh_inline_enabled = i.spesh_inline_enabled ∧
    (jitBytecodeMapSetup env i).spesh_osr_enabled = i.spesh_osr_enabled := by
  unfold jitBytecodeMapSetup; split <;> exact ⟨rfl, rfl, rfl⟩

lemma dynvarSetup_spesh (env : Env) (pid : Nat) (i : Instance) :
    (dynvarSetup env pid i).spesh_enabled = i.spesh_enabled ∧
    (dynvarSetup env pid i).spesh_inline_enabled = i.spesh_inline_enabled ∧
    (dynvarSetup env pid i).spesh_osr_enabled = i.spesh_osr_enabled := by
  unfold dynvarSetup; split <;> exact ⟨rfl, rfl, rfl⟩

lemma nfaSetup_spesh (env : Env) (i : Instance) :
    (nfaSetup env i).spesh_enabled = i.spesh_enabled ∧
    (nfaSetup env i).spesh_inline_enabled = i.spesh_inline_enabled ∧
    (nfaSetup env i).spesh_osr_enabled = i.spesh_osr_enabled :=
  ⟨rfl, rfl, rfl⟩

lemma crossThreadSetup_spesh (env : Env) (i : Instance) :
    (crossThreadSetup env i).spesh_enabled = i.spesh_enabled ∧
    (crossThreadSetup env i).spesh_inline_enabled = i.spesh_inline_enabled ∧
    (crossThreadSetup env i).spesh_osr_enabled = i.spesh_osr_enabled := by
  unfold crossThreadSetup; split <;> exact ⟨rfl, rfl, rfl⟩

lemma coverageSetup_spesh (env : Env) (pid : Nat) (i : Instance) :
    (coverageSetup env pid i).spesh_enabled = i.spesh_enabled ∧
    (coverageSetup env pid i).spesh_inline_enabled = i.spesh_inline_enabled ∧
    (coverageSetup env pid i).spesh_osr_enabled = i.spesh_osr_enabled := by
  unfold coverageSetup; split <;> exact ⟨rfl, rfl, rfl⟩

/-- The main-thread id and the next-thread-id counter after bootstrap. -/
lemma create_ids (env : Env) (pid : Nat) :
    (MVM_vm_create_instance env pid).main_thread_thread_id = 1 ∧
    (MVM_vm_create_instance env pid).next_user_thread_id = 2 := by
  simp only [MVM_vm_create_instance, jitSetup, coverageSetup_ids,
    crossThreadSetup_ids, nfaSetup_ids, dynvarSetup_ids, jitBytecodeMapSetup_ids,
    jitLogSetup_ids, jitEnabledSetup_ids, speshNodelaySetup_ids,
    speshFlagsSetup_ids, speshLogSetup_ids]
  exact ⟨rfl, rfl⟩

/-- The instrumentation level after bootstrap: 1 plus one per serialized
diagnostic enabled by environment-variable presence. -/
lemma create_level (env : Env) (pid : Nat) :
    (MVM_vm_create_instance env pid).instrumentation_level =
      1 + (if (env "MVM_CROSS_THREAD_WRITE_LOG").isSome then 1 else 0)
        + (if (env "MVM_COVERAGE_LOG").isSome then 1 else 0) := by
  simp only [MVM_vm_create_instance, jitSetup, coverageSetup_level,
    crossThreadSetup_level, nfaSetup_level, dynvarSetup_level,
    jitBytecodeMapSetup_level, jitLogSetup_level, jitEnabledSetup_level,
    speshNodelaySetup_level, speshFlagsSetup_level, speshLogSetup_level]
  rfl

/-- The three specializer flags after bootstrap, as functions of the three
disable variables. -/
lemma create_spesh (env : Env) (pid : Nat) :
    (MVM_vm_create_instance env pid).spesh_enabled
        = !envNonEmpty env "MVM_SPESH_DISABLE" ∧
    (MVM_vm_create_instance env pid).spesh_inline_enabled
        = (!envNonEmpty env "MVM_SPESH_DISABLE"
           && !envNonEmpty env "MVM_SPESH_INLINE_DISABLE") ∧
    (MVM_vm_create_instance env pid).spesh_osr_enabled
        = (!envNonEmpty env "MVM_SPESH_DISABLE"
           && !envNonEmpty env "MVM_SPESH_OSR_DISABLE") := by
  simp only [MVM_vm_create_instance, jitSetup, coverageSetup_spesh,
    crossThreadSetup_spesh, nfaSetup_spesh, dynvarSetup_spesh,
    jitBytecodeMapSetup_spesh, jitLogSetup_spesh, jitEnabledSetup_spesh,
    speshNodelaySetup_spesh]
  unfold speshFlagsSetup speshOsrSetup speshInlineSetup
  repeat' split
  all_goals simp_all [speshLogSetup_spesh, speshLogSetup, baseSetup, zeroInstance]
  all_goals split <;> simp_all [baseSetup, zeroInstance]

/-! ## Properties of the decimal rendering -/

lemma digitChar_ne (d : Nat) : digitChar d ≠ '%' ∧ digitChar d ≠ 'd' := by
  unfold digitChar
  repeat' split
  all_goals decide

lemma decimalAux_mem : ∀ (fuel n : Nat) (acc : List Char) (c : Char),
    c ∈ decimalAux fuel n acc → c ∈ acc ∨ ∃ d, c = digitChar d := by
  intro fuel
  induction fuel with
  | zero =>
    intro n acc c h
    cases n <;> exact Or.inl h
  | succ fuel ih =>
    intro n acc c h
    cases n with
    | zero => exact Or.inl h
    | succ m =>
      rcases ih _ _ _ h with hacc | hd
      · rcases List.mem_cons.mp hacc with rfl | h2
        · exact Or.inr ⟨(m + 1) % 10, rfl⟩
        · exact Or.inl h2
      · exact Or.inr hd

lemma decimal_mem (n : Nat) (c : Char) (h : c ∈ decimal n) :
    c ≠ '%' ∧ c ≠ 'd' := by
  unfold decimal at h
  split at h
  · rcases List.mem_singleton.mp h with rfl
    exact ⟨by decide, by decide⟩
  · rcases decimalAux_mem _ _ _ _ h with h2 | ⟨d, rfl⟩
    · simp at h2
    · exact digitChar_ne d

lemma decimalAux_length : ∀ (fuel k n : Nat) (acc : List Char), n < 10 ^ k →
    (decimalAux fuel n acc).length ≤ k + acc.length := by
  intro fuel
  induction fuel with
  | zero =>
    intro k n acc _
    cases n <;> · show acc.length ≤ _; omega
  | succ fuel ih =>
    intro k n acc h
    cases n with
    | zero => show acc.length ≤ _; omega
    | succ m =>
      cases k with
      | zero => simp [pow_zero] at h
      | succ k =>
        have h2 : (m + 1) / 10 < 10 ^ k := by
          apply (Nat.div_lt_iff_lt_mul (by decide : (0:Nat) < 10)).mpr
          calc m + 1 < 10 ^ (k + 1) := h
            _ = 10 ^ k * 10 := pow_succ 10 k
        calc (decimalAux (fuel + 1) (m + 1) acc).length
            = (decimalAux fuel ((m + 1) / 10)
                (digitChar ((m + 1) % 10) :: acc)).length := rfl
          _ ≤ k + (digitChar ((m + 1) % 10) :: acc).length := ih k _ _ h2
          _ = (k + 1) + acc.length := by simp [List.length_cons]; omega

lemma decimal_length (n : Nat) (h : n < 10 ^ 16) : (decimal n).length ≤ 16 := by
  unfold decimal
  split
  · simp
  · simpa using decimalAux_length n 16 n [] h

lemma decimalAux_length_lb : ∀ (fuel n : Nat) (acc : List Char),
    acc.length ≤ (decimalAux fuel n acc).length := by
  intro fuel
  induction fuel with
  | zero => intro n acc; cases n <;> exact Nat.le_refl _
  | succ fuel ih =>
    intro n acc
    cases n with
    | zero => exact Nat.le_refl _
    | succ m =>
      calc acc.length ≤ (digitChar ((m + 1) % 10) :: acc).length := by simp
        _ ≤ _ := ih ((m + 1) / 10) _

lemma decimal_ne_nil (n : Nat) : decimal n ≠ [] := by
  unfold decimal
  split
  · simp
  · intro hnil
    rename_i hn
    apply List.ne_nil_of_length_pos (l := decimalAux n n []) ?_ hnil
    cases n with
    | zero => exact absurd rfl hn
    | succ m =>
      have := decimalAux_length_lb m ((m + 1) / 10) [digitChar ((m + 1) % 10)]
      calc 0 < 1 := Nat.one_pos
        _ = [digitChar ((m + 1) % 10)].length := rfl
        _ ≤ (decimalAux (m + 1) (m + 1) []).length := this

/-! ## Properties of the percent scanners -/

lemma hasPctD_cons (a : Char) (X : List Char) :
    hasPctD (a :: X) = (((a == '%') && (X.head? == some 'd')) || hasPctD X) := by
  cases X with
  | nil =>
    show false = (((a == '%') && ((none : Option Char) == some 'd')) || false)
    rw [show ((none : Option Char) == some 'd') = false from rfl]
    simp
  | cons b rest =>
    show (((a == '%') && (b == 'd')) || hasPctD (b :: rest)) = _
    simp only [List.head?_cons]
    rw [show ((some b : Option Char) == some 'd') = (b == 'd') from rfl]

lemma hasPctD_cons_of (a : Char) (X : List Char) (h : hasPctD X = true) :
    hasPctD (a :: X) = true := by
  rw [hasPctD_cons, h, Bool.or_true]

lemma hasPctD_append (l₁ l₂ : List Char) (h : ∀ c ∈ l₁, c ≠ '%') :
    hasPctD (l₁ ++ l₂) = hasPctD l₂ := by
  induction l₁ with
  | nil => rfl
  | cons a l₁ ih =>
    have ha : a ≠ '%' := h a (List.mem_cons_self a l₁)
    have ih' := ih (fun c hc => h c (List.mem_cons_of_mem a hc))
    rw [List.cons_append, hasPctD_cons]
    have hb : (a == '%') = false := beq_eq_false_iff_ne.mpr ha
    rw [hb, Bool.false_and, Bool.false_or, ih']

lemma directives_cons_ne (c : Char) (r : List Char) (hc : c ≠ '%') :
    directives (c :: r) = directives r := by
  cases r with
  | nil => simp [directives, hc]
  | cons y ys => simp [directives, hc]

lemma hasCollapsedPctD_cons_ne (c : Char) (r : List Char) (hc : c ≠ '%') :
    hasCollapsedPctD (c :: r) = hasCollapsedPctD r := by
  cases r with
  | nil => simp [hasCollapsedPctD]
  | cons y ys => simp [hasCollapsedPctD, hc]

lemma countPercents_eq (l : List Char) :
    countPercents l = (directives l).length := by
  induction l using countPercents.induct <;>
    simp_all [countPercents, directives]
  omega

/-! ## How formatting interacts with the scanners -/

lemma formatD_head_d (pid : Nat) (t : List Char) :
    (formatD pid ('d' :: t)).head? = some 'd' := by
  cases t with
  | nil => rfl
  | cons y ys => simp [formatD]

lemma formatD_head_ne_d (pid : Nat) (l : List Char) (hl : l.head? ≠ some 'd') :
    (formatD pid l).head? ≠ some 'd' := by
  cases l with
  | nil => simp [formatD]
  | cons a t =>
    cases t with
    | nil => simpa [formatD] using hl
    | cons b rest =>
      by_cases ha : a = '%'
      · subst ha
        by_cases hb : b = '%'
        · subst hb; simp [formatD]
        · by_cases hd : b = 'd'
          · subst hd
            have hf : formatD pid ('%' :: 'd' :: rest) =
                decimal pid ++ formatD pid rest := by simp [formatD]
            rw [hf]
            obtain ⟨c₀, cs, hdec⟩ :=
              List.exists_cons_of_ne_nil (decimal_ne_nil pid)
            rw [hdec]
            simp only [List.cons_append, List.head?_cons]
            intro hEq
            have hc := decimal_mem pid c₀ (hdec ▸ List.mem_cons_self _ _)
            exact hc.2 (by simpa using hEq)
          · simp [formatD, hb, hd]
      · simpa [formatD, ha] using hl

/-- The central correspondence: on a path whose independent directives are
nothing but at most one single %d, the formatted output contains a literal
"%d" exactly when the scan meets a "%%" pair immediately followed by 'd'. -/
lemma formatD_hasPctD (pid : Nat) (l : List Char)
    (h : directives l = [] ∨ directives l = [some 'd']) :
    hasPctD (formatD pid l) = hasCollapsedPctD l := by
  induction l using formatD.induct pid with
  | case1 => rfl
  | case2 c => rfl
  | case3 rest ih =>
    have hdir : directives ('%' :: '%' :: rest) = directives rest := by
      simp [directives]
    rw [hdir] at h
    have hf : formatD pid ('%' :: '%' :: rest) = '%' :: formatD pid rest := by
      simp [formatD]
    rw [hf]
    by_cases hd : rest.head? = some 'd'
    · obtain ⟨rest', rfl⟩ : ∃ t, rest = 'd' :: t := by
        cases rest with
        | nil => simp at hd
        | cons y ys =>
          have hy : y = 'd' := by simpa using hd
          exact ⟨ys, by rw [hy]⟩
      rw [hasPctD_cons, formatD_head_d]
      have h1 : ((some 'd' : Option Char) == some 'd') = true := by decide
      have h2 : (('%' : Char) == '%') = true := by decide
      rw [h1, h2]
      have hC : hasCollapsedPctD ('%' :: '%' :: 'd' :: rest') = true := by
        simp [hasCollapsedPctD]
      rw [hC]; simp
    · have hC : hasCollapsedPctD ('%' :: '%' :: rest) = hasCollapsedPctD rest := by
        have hfalse : ((rest.head? : Option Char) == some 'd') = false :=
          beq_eq_false_iff_ne.mpr hd
        simp [hasCollapsedPctD, hfalse]
      rw [hC, hasPctD_cons]
      have hhead : (formatD pid rest).head? ≠ some 'd' := formatD_head_ne_d pid rest hd
      have hfalse2 : ((formatD pid rest).head? == some 'd') = false :=
        beq_eq_false_iff_ne.mpr hhead
      rw [hfalse2, Bool.and_false, Bool.false_or, ih h]
  | case4 rest hned ih =>
    have hstep : directives ('d' :: rest) = directives rest :=
      directives_cons_ne 'd' rest (by decide)
    have hdir : directives ('%' :: 'd' :: rest) =
        some 'd' :: directives rest := by
      simp [directives, hstep]
    rw [hdir] at h
    rcases h with h | h
    · exact absurd h (by simp)
    · have hrest : directives rest = [] := by simpa using h
      have hf : formatD pid ('%' :: 'd' :: rest) =
          decimal pid ++ formatD pid rest := by simp [formatD]
      rw [hf, hasPctD_append (decimal pid) _ (fun c hc => (decimal_mem pid c hc).1),
        ih (Or.inl hrest)]
      have hC1 : hasCollapsedPctD ('%' :: 'd' :: rest) =
          hasCollapsedPctD ('d' :: rest) := by
        simp [hasCollapsedPctD]
      have hC2 : hasCollapsedPctD ('d' :: rest) = hasCollapsedPctD rest :=
        hasCollapsedPctD_cons_ne 'd' rest (by decide)
      rw [hC1, hC2]
  | case5 b rest hb hbd ih =>
    exfalso
    have hdir : directives ('%' :: b :: rest) =
        some b :: directives (b :: rest) := by
      simp [directives, hb]
    rw [hdir] at h
    rcases h with h | h
    · exact absurd h (by simp)
    · have hx : b = 'd' ∧ directives (b :: rest) = [] := by simpa using h
      exact hbd hx.1
  | case6 a b rest ha ih =>
    have hdir : directives (a :: b :: rest) = directives (b :: rest) := by
      simp [directives, ha]
    rw [hdir] at h
    have hf : formatD pid (a :: b :: rest) = a :: formatD pid (b :: rest) := by
      simp [formatD, ha]
    rw [hf, hasPctD_cons]
    have hfalse : ((a : Char) == '%') = false := beq_eq_false_iff_ne.mpr ha
    rw [hfalse, Bool.false_and, Bool.false_or, ih h]
    exact (hasCollapsedPctD_cons_ne a (b :: rest) ha).symm

/-- Length of the formatted output, used to show the snprintf buffer of
path_length + 16 bytes never truncates. -/
lemma formatD_length (pid : Nat) (l : List Char) :
    (directives l = [] → (formatD pid l).length ≤ l.length) ∧
    (directives l = [some 'd'] →
      (formatD pid l).length + 2 ≤ l.length + (decimal pid).length) := by
  induction l using formatD.induct pid with
  | case1 => constructor <;> · intro h; simp_all [directives, formatD]
  | case2 c =>
    constructor <;> intro h
    · simp [formatD]
    · unfold directives at h
      split at h <;> simp_all
  | case3 rest ih =>
    have hdir : directives ('%' :: '%' :: rest) = directives rest := by
      simp [directives]
    have hf : formatD pid ('%' :: '%' :: rest) = '%' :: formatD pid rest := by
      simp [formatD]
    constructor <;> intro h <;> rw [hdir] at h <;> rw [hf]
    · have := ih.1 h; simp; omega
    · have := ih.2 h; simp [List.length_cons]; omega
  | case4 rest hned ih =>
    have hstep : directives ('d' :: rest) = directives rest :=
      directives_cons_ne 'd' rest (by decide)
    have hdir : directives ('%' :: 'd' :: rest) =
        some 'd' :: directives rest := by
      simp [directives, hstep]
    have hf : formatD pid ('%' :: 'd' :: rest) =
        decimal pid ++ formatD pid rest := by simp [formatD]
    constructor <;> intro h <;> rw [hdir] at h
    · exact absurd h (by simp)
    · have hrest : directives rest = [] := by simpa using h
      have := ih.1 hrest
      rw [hf]
      simp [List.length_append, List.length_cons]
      omega
  | case5 b rest hb hbd ih =>
    have hdir : directives ('%' :: b :: rest) =
        some b :: directives (b :: rest) := by
      simp [directives, hb]
    constructor <;> intro h <;> rw [hdir] at h
    · exact absurd h (by simp)
    · have hx : b = 'd' ∧ directives (b :: rest) = [] := by simpa using h
      exact absurd hx.1 hbd
  | case6 a b rest ha ih =>
    have hdir : directives (a :: b :: rest) = directives (b :: rest) := by
      simp [directives, ha]
    have hf : formatD pid (a :: b :: rest) = a :: formatD pid (b :: rest) := by
      simp [formatD, ha]
    constructor <;> intro h <;> rw [hdir] at h <;> rw [hf]
    · have h1 := ih.1 h
      simp only [List.length_cons] at h1 ⊢
      omega
    · have h1 := ih.2 h
      simp only [List.length_cons] at h1 ⊢
      omega

/-- A path whose directive list contains a %d directive contains the literal
substring "%d" (so the strstr test of moar.c:25 fires on it). -/
lemma directives_d_hasPctD (l : List Char)
    (h : some 'd' ∈ directives l) : hasPctD l = true := by
  induction l using directives.induct with
  | case1 => simp [directives] at h
  | case2 => simp [directives] at h
  | case3 c hc => simp [directives, hc] at h
  | case4 rest ih =>
    rw [show directives ('%' :: '%' :: rest) = directives rest from by
      simp [directives]] at h
    exact hasPctD_cons_of _ _ (hasPctD_cons_of _ _ (ih h))
  | case5 b rest hb ih =>
    by_cases hd : b = 'd'
    · subst hd
      show (('%' == '%' && 'd' == 'd') || hasPctD ('d' :: rest)) = true
      rfl
    · rw [show directives ('%' :: b :: rest) =
          some b :: directives (b :: rest) from by simp [directives, hb]] at h
      rcases List.mem_cons.mp h with heq | h2
      · exact absurd (by simpa using heq.symm) hd
      · exact hasPctD_cons_of _ _ (ih h2)
  | case6 a b rest ha ih =>
    rw [show directives (a :: b :: rest) = directives (b :: rest) from by
      simp [directives, ha]] at h
    exact hasPctD_cons_of _ _ (ih h)

/-- On a path whose directive scan yields exactly one %d directive and
nothing else, fopen_perhaps_with_pid takes the substitution branch, and the
snprintf buffer of path_length + 16 bytes never truncates (the pid is
assumed to fit in 16 characters, the source's own stated assumption). -/
lemma fopen_single_d (path : List Char) (mode : String) (pid : Nat)
    (h1 : directives path = [some 'd']) (h3 : pid < 10 ^ 16) :
    fopen_perhaps_with_pid path mode pid =
      { pathUsed := formatD pid path, substituted := true } := by
  have hpct : hasPctD path = true :=
    directives_d_hasPctD path (h1 ▸ List.mem_singleton_self _)
  have hcount : countPercents path = 1 := by
    rw [countPercents_eq, h1]; rfl
  have hlen : (formatD pid path).length ≤ path.length + 15 := by
    have h2 := (formatD_length pid path).2 h1
    have hL := decimal_length pid h3
    omega
  have hgt : ¬ countPercents path > 1 := by omega
  unfold fopen_perhaps_with_pid
  rw [if_pos hpct, if_neg hgt]
  unfold snprintfD
  rw [List.take_of_length_le hlen]

lemma assigned_ids_ge : ∀ (n c : Nat), ∀ id ∈ assigned_ids c n, c ≤ id := by
  intro n
  induction n with
  | zero => intro c id h; simp [assigned_ids] at h
  | succ n ih =>
    intro c id h
    simp only [assigned_ids, spawn_thread_id, List.mem_cons] at h
    rcases h with rfl | h2
    · exact Nat.le_refl _
    · exact Nat.le_of_succ_le (ih (c + 1) id h2)

/-- Coverage fields of the instance when the coverage variable is present. -/
lemma create_coverage_present (env : Env) (pid : Nat) (v : String)
    (h : env "MVM_COVERAGE_LOG" = some v) :
    (MVM_vm_create_instance env pid).coverage_logging = true ∧
    (MVM_vm_create_instance env pid).coverage_log_fh =
      (if v.length != 0 then
        some (Sink.file
          (fopen_perhaps_with_pid v.data "a" pid).pathUsed)
      else some Sink.stdErr) := by
  unfold MVM_vm_create_instance coverageSetup
  have hs : (env "MVM_COVERAGE_LOG").isSome = true := by rw [h]; rfl
  rw [if_pos hs]
  have hv : envValue env "MVM_COVERAGE_LOG" = v := by unfold envValue; rw [h]; rfl
  rw [hv]
  exact ⟨rfl, rfl⟩

/-! ## The claims -/

/-- Claim C1 (code bug): every mutex-initialization failure in
create_instance exits with status 1 after printing a diagnostic, but the
diagnostic does not always name the specific resource: the DLL-registry
mutex (whose own comment at moar.c:102 says "Set up DLL registry mutex.")
is initialized with the name "REPR registry" copied from moar.c:97, so its
failure diagnostic is identical to the REPR registry's and names the wrong
resource. -/
theorem C1_dll_registry_diagnostic :
    init_mutex (-1) MutexId.dll_registry =
      InitMutexResult.fail
        "MoarVM: Initialization of REPR registry mutex failed" 1 ∧
    mutexInitName MutexId.dll_registry = mutexInitName MutexId.repr_registry ∧
    MutexId.dll_registry ≠ MutexId.repr_registry ∧
    MutexId.dll_registry ∈ bootstrapMutexInits ∧
    MutexId.repr_registry ∈ bootstrapMutexInits := by decide

/-- Claim C2, counterexample: destroying an instance whose bootstrap opened
the JIT bytecode map and a coverage log leaves both sinks open — teardown
does not close every diagnostic log sink opened at bootstrap. -/
theorem C2_counterexample :
    (MVM_vm_create_instance envBytecodeCoverage 7).jit_bytecode_map =
      some (Sink.file "/tmp/jit-map.txt".data) ∧
    ((MVM_vm_destroy_instance_logs
        (MVM_vm_create_instance envBytecodeCoverage 7)).jit_bytecode_map).isSome
      = true ∧
    ((MVM_vm_destroy_instance_logs
        (MVM_vm_create_instance envBytecodeCoverage 7)).coverage_log_fh).isSome
      = true := by decide

/-- Claim C2 (amended): destroy_instance closes the specializer log, the
JIT log and the dynamic-variable log, and leaves the JIT bytecode map and
the coverage log untouched. -/
theorem C2_amended_close_log_sinks (i : Instance) :
    (MVM_vm_destroy_instance_logs i).spesh_log_fh = none ∧
    (MVM_vm_destroy_instance_logs i).jit_log_fh = none ∧
    (MVM_vm_destroy_instance_logs i).dynvar_log_fh = none ∧
    (MVM_vm_destroy_instance_logs i).jit_bytecode_map = i.jit_bytecode_map ∧
    (MVM_vm_destroy_instance_logs i).coverage_log_fh = i.coverage_log_fh := by
  have h : ∀ x, fcloseIfOpen x = none := fun x => by cases x <;> rfl
  exact ⟨h _, h _, h _, rfl, rfl⟩

/-- Claim C3, counterexample: the path "%%d%d" has exactly one independent
%d directive (the first '%' is part of a "%%" pair), the sanitizer does
substitute the pid, yet the result "%d1234" still contains a literal "%d",
because the "%%" collapses to a '%' that fuses with the following 'd'. -/
theorem C3_counterexample :
    directives "%%d%d".data = [some 'd'] ∧
    (fopen_perhaps_with_pid "%%d%d".data "w" 1234).substituted = true ∧
    (fopen_perhaps_with_pid "%%d%d".data "w" 1234).pathUsed = "%d1234".data ∧
    hasPctD (fopen_perhaps_with_pid "%%d%d".data "w" 1234).pathUsed = true := by
  decide

/-- Claim C3 (amended): for every path whose independent directives are
exactly one %d directive, such that no "%%" pair is immediately followed by
'd', and a pid of at most 16 decimal digits (the source's stated
assumption), the sanitizer substitutes the pid for the directive and the
resulting string contains no literal "%d". -/
theorem C3_amended_single_pct_d (path : List Char) (mode : String) (pid : Nat)
    (h1 : directives path = [some 'd'])
    (h2 : hasCollapsedPctD path = false)
    (h3 : pid < 10 ^ 16) :
    (fopen_perhaps_with_pid path mode pid).substituted = true ∧
    (fopen_perhaps_with_pid path mode pid).pathUsed = formatD pid path ∧
    hasPctD (fopen_perhaps_with_pid path mode pid).pathUsed = false := by
  rw [fopen_single_d path mode pid h1 h3]
  refine ⟨rfl, rfl, ?_⟩
  show hasPctD (formatD pid path) = false
  rw [formatD_hasPctD pid path (Or.inr h1)]
  exact h2

/-- Witness for the amended C3 at the path "spesh-%d.log" and pid 1234. -/
theorem C3_witness :
    (fopen_perhaps_with_pid "spesh-%d.log".data "w" 1234).substituted = true ∧
    (fopen_perhaps_with_pid "spesh-%d.log".data "w" 1234).pathUsed =
      formatD 1234 "spesh-%d.log".data ∧
    hasPctD (fopen_perhaps_with_pid "spesh-%d.log".data "w" 1234).pathUsed
      = false :=
  C3_amended_single_pct_d "spesh-%d.log".data "w" 1234
    (by decide) (by decide) (by decide)

/-- Claim C4: on a path with two or more independent (non-"%%") directives,
the sanitizer performs no substitution and the file is opened at the
original, unmodified path. -/
theorem C4_multiple_directives_unmodified (path : List Char) (mode : String)
    (pid : Nat) (h : 2 ≤ (directives path).length) :
    fopen_perhaps_with_pid path mode pid =
      { pathUsed := path, substituted := false } := by
  have hc : countPercents path > 1 := by rw [countPercents_eq]; omega
  unfold fopen_perhaps_with_pid
  by_cases hp : hasPctD path = true
  · rw [if_pos hp, if_pos hc]
  · rw [if_neg hp]

/-- Witness for C4 at the path "%d-%d.log". -/
theorem C4_witness :
    fopen_perhaps_with_pid "%d-%d.log".data "w" 7 =
      { pathUsed := "%d-%d.log".data, substituted := false } :=
  C4_multiple_directives_unmodified "%d-%d.log".data "w" 7 (by decide)

/-- Claim C5, counterexample: an environment with the specializer disable
unset and the inline disable set non-empty, but also the OSR disable set
non-empty, satisfies the claim's hypotheses yet yields
spesh_osr_enabled = false, contradicting the claimed spesh_osr_enabled =
true. -/
theorem C5_counterexample :
    envInlineOsr "MVM_SPESH_DISABLE" = none ∧
    envInlineOsr "MVM_SPESH_INLINE_DISABLE" = some "1" ∧
    (MVM_vm_create_instance envInlineOsr 7).spesh_enabled = true ∧
    (MVM_vm_create_instance envInlineOsr 7).spesh_inline_enabled = false ∧
    (MVM_vm_create_instance envInlineOsr 7).spesh_osr_enabled = false := by
  decide

/-- Claim C5 (amended): if the specializer-disable variable is unset or
empty, the inline-disable variable set non-empty, and the OSR-disable
variable unset or empty, then after create_instance the specializer is
enabled, inlining disabled and OSR enabled; moreover the inline and OSR
toggles are only consulted when the specializer is enabled — whenever the
specializer-disable variable is set non-empty, both flags are false
whatever the toggle variables hold. -/
theorem C5_amended_spesh_toggles (env : Env) (pid : Nat)
    (h1 : envNonEmpty env "MVM_SPESH_DISABLE" = false)
    (h2 : envNonEmpty env "MVM_SPESH_INLINE_DISABLE" = true)
    (h3 : envNonEmpty env "MVM_SPESH_OSR_DISABLE" = false) :
    (MVM_vm_create_instance env pid).spesh_enabled = true ∧
    (MVM_vm_create_instance env pid).spesh_inline_enabled = false ∧
    (MVM_vm_create_instance env pid).spesh_osr_enabled = true ∧
    (∀ (env2 : Env) (pid2 : Nat),
      envNonEmpty env2 "MVM_SPESH_DISABLE" = true →
      (MVM_vm_create_instance env2 pid2).spesh_inline_enabled = false ∧
      (MVM_vm_create_instance env2 pid2).spesh_osr_enabled = false) := by
  obtain ⟨e1, e2, e3⟩ := create_spesh env pid
  refine ⟨?_, ?_, ?_, ?_⟩
  · rw [e1, h1]; rfl
  · rw [e2, h1, h2]; rfl
  · rw [e3, h1, h3]; rfl
  · intro env2 pid2 hd
    obtain ⟨f1, f2, f3⟩ := create_spesh env2 pid2
    exact ⟨by rw [f2, hd]; rfl, by rw [f3, hd]; rfl⟩

/-- Witness for the amended C5: only the inline disable set. -/
theorem C5_witness :
    (MVM_vm_create_instance envInlineOnly 7).spesh_enabled = true ∧
    (MVM_vm_create_instance envInlineOnly 7).spesh_inline_enabled = false ∧
    (MVM_vm_create_instance envInlineOnly 7).spesh_osr_enabled = true :=
  ⟨(C5_amended_spesh_toggles envInlineOnly 7 (by decide) (by decide)
      (by decide)).1,
   (C5_amended_spesh_toggles envInlineOnly 7 (by decide) (by decide)
      (by decide)).2.1,
   (C5_amended_spesh_toggles envInlineOnly 7 (by decide) (by decide)
      (by decide)).2.2.1⟩

/-- Claim C6: with the coverage-log variable present but empty, coverage
logging is enabled, the sink is the standard error stream, and the
instrumentation level is one higher than it would be without the coverage
feature. -/
theorem C6_coverage_empty (env : Env) (pid : Nat)
    (h : env "MVM_COVERAGE_LOG" = some "") :
    (MVM_vm_create_instance env pid).coverage_logging = true ∧
    (MVM_vm_create_instance env pid).coverage_log_fh = some Sink.stdErr ∧
    (MVM_vm_create_instance env pid).instrumentation_level =
      (1 + (if (env "MVM_CROSS_THREAD_WRITE_LOG").isSome then 1 else 0)) + 1 := by
  obtain ⟨a, b⟩ := create_coverage_present env pid "" h
  refine ⟨a, ?_, ?_⟩
  · rw [b]; rfl
  · rw [create_level env pid, h]; rfl

/-- Witness for C6 with only COVERAGE_LOG (empty) in the environment. -/
theorem C6_witness :
    (MVM_vm_create_instance envCoverageEmpty 7).coverage_logging = true ∧
    (MVM_vm_create_instance envCoverageEmpty 7).coverage_log_fh =
      some Sink.stdErr ∧
    (MVM_vm_create_instance envCoverageEmpty 7).instrumentation_level =
      (1 + (if (envCoverageEmpty "MVM_CROSS_THREAD_WRITE_LOG").isSome
        then 1 else 0)) + 1 :=
  C6_coverage_empty envCoverageEmpty 7 (by decide)

/-- Claim C7: for every environment, the instrumentation level at the end
of create_instance is 1 plus the number of enabled serialized diagnostics
(cross-thread-write logging and coverage logging); both present gives 3,
neither gives 1. -/
theorem C7_instrumentation_level (env : Env) (pid : Nat) :
    (MVM_vm_create_instance env pid).instrumentation_level =
      1 + (if (env "MVM_CROSS_THREAD_WRITE_LOG").isSome then 1 else 0)
        + (if (env "MVM_COVERAGE_LOG").isSome then 1 else 0) :=
  create_level env pid

/-- Claim C8: setting more library paths than the fixed capacity panics
with exit code 1 and the stated diagnostic, and the path list is carried
out of the panic exactly as it was — the overflow check precedes every
write. -/
theorem C8_lib_path_overflow (maxCount : Nat) (lib_path : List (Option String))
    (paths : List String) (h : paths.length > maxCount) :
    MVM_vm_set_lib_path maxCount lib_path paths =
      SetLibPathResult.panicked "Cannot set more than %i library paths" 1
        lib_path := by
  unfold MVM_vm_set_lib_path
  rw [if_pos h]

/-- Witness for C8: nine paths against a capacity of eight. -/
theorem C8_witness :
    MVM_vm_set_lib_path 8 (List.replicate 8 none)
      ["a", "b", "c", "d", "e", "f", "g", "h", "i"] =
      SetLibPathResult.panicked "Cannot set more than %i library paths" 1
        (List.replicate 8 none) :=
  C8_lib_path_overflow 8 (List.replicate 8 none)
    ["a", "b", "c", "d", "e", "f", "g", "h", "i"] (by decide)

/-- Claim C9: after create_instance, the main thread's id is 1 and the
next-thread-id counter holds 2, so every id handed out by subsequent spawns
is at least 2. -/
theorem C9_thread_ids (env : Env) (pid : Nat) (n : Nat) :
    (MVM_vm_create_instance env pid).main_thread_thread_id = 1 ∧
    (MVM_vm_create_instance env pid).next_user_thread_id = 2 ∧
    ∀ id ∈ assigned_ids (MVM_vm_create_instance env pid).next_user_thread_id n,
      2 ≤ id := by
  obtain ⟨h1, h2⟩ := create_ids env pid
  refine ⟨h1, h2, ?_⟩
  rw [h2]
  exact assigned_ids_ge n 2

/-- Witness for C9: in the empty environment, the one spawned thread after
bootstrap gets id 2. -/
theorem C9_witness :
    (MVM_vm_create_instance envEmpty 7).main_thread_thread_id = 1 ∧
    (MVM_vm_create_instance envEmpty 7).next_user_thread_id = 2 ∧ 2 ≤ 2 :=
  ⟨(C9_thread_ids envEmpty 7 1).1, (C9_thread_ids envEmpty 7 1).2.1,
   (C9_thread_ids envEmpty 7 1).2.2 2 (by decide)⟩

/-- Claim C10, counterexample: the path "%%d%s" has a single independent
directive %s and no %d directive, yet the sanitizer attempts substitution
(the strstr test sees the "%d" inside "%%d" and the percent count is 1),
and the file is not opened at the original path. -/
theorem C10_counterexample :
    directives "%%d%s".data = [some 's'] ∧
    (fopen_perhaps_with_pid "%%d%s".data "w" 1234).substituted = true ∧
    (fopen_perhaps_with_pid "%%d%s".data "w" 1234).pathUsed ≠ "%%d%s".data := by
  decide

/-- Claim C10 (amended): the sanitizer attempts pid substitution only when
the path contains the literal two-character substring "%d"; for every path
not containing that substring — in particular a path whose only directives
are of other kinds and which has no "%%d" sequence — the file is opened at
the literal path with no substitution attempted. -/
theorem C10_substitution_requires_pct_d (path : List Char) (mode : String)
    (pid : Nat) :
    ((fopen_perhaps_with_pid path mode pid).substituted = true →
      hasPctD path = true) ∧
    (hasPctD path = false →
      fopen_perhaps_with_pid path mode pid =
        { pathUsed := path, substituted := false }) := by
  constructor
  · intro hs
    by_cases hp : hasPctD path = true
    · exact hp
    · exfalso
      unfold fopen_perhaps_with_pid at hs
      rw [if_neg hp] at hs
      simp at hs
  · intro hp
    unfold fopen_perhaps_with_pid
    rw [if_neg (by simp [hp])]

/-- Witness for the amended C10 at the path "cov-%s.log". -/
theorem C10_witness :
    fopen_perhaps_with_pid "cov-%s.log".data "w" 7 =
      { pathUsed := "cov-%s.log".data, substituted := false } :=
  (C10_substitution_requires_pct_d "cov-%s.log".data "w" 7).2 (by decide)

end Moar
